import Mathlib

/-!
Shallow embedding of the authenticated wiki-publishing code of this
repository: `wiki_publish.py` (login with bot-password fallback, `edit_page`
with retry, the `main` CLI flow) and `psi_wiki_integration/wiki_client.py`
(`publish_page`, `copy_page`).

All network interaction is modelled by oracles.  For `edit_page` the oracle
maps an attempt index to the outcome of that attempt (the CSRF-token fetch
and, when the fetch succeeds, the response to the edit POST).  For the
login/bot-password protocol the oracle maps a call counter (the number of
API round-trips already made on the session) to the remote response of the
next round-trip.  Exceptions are explicit error values; the unbounded
mutual recursion of `login` and `create_bot_password` is made total with a
fuel parameter (`AuthRes.fuelOut` marks fuel exhaustion, i.e. the Python
code would still be recursing).
-/

deriving instance DecidableEq for Except

namespace WikiPublish

/-- Python-level exception values raised or caught by the scripts:
`requests.exceptions.HTTPError` (carries the response status),
`RuntimeError` (carries the message), and non-HTTP transport errors such as
`requests.exceptions.ConnectionError`. -/
inductive PyErr where
  | httpError (status : Nat)
  | runtimeError (msg : String)
  | connError (msg : String)
deriving DecidableEq

/-- Remote response to one edit POST inside `edit_page`:
a non-HTTP transport failure while posting, an HTTP status error raised by
`response.raise_for_status()`, or a parsed JSON body whose `edit` envelope
has a `result`, an optional `message`, and a `newrevid`. -/
inductive EditResp where
  | netErr (msg : String)
  | httpErr (status : Nat)
  | envelope (result : String) (message : Option String) (newrevid : Nat)
deriving DecidableEq

/-- Outcome of one attempt of the `edit_page` loop: either the
`get_csrf_token` call fails (it converts every failure into
`RuntimeError("Could not retrieve CSRF token")`), or it returns a token and
the edit POST of the same attempt gets response `resp`. -/
inductive AttemptResp where
  | csrfFail
  | csrfOk (tok : String) (resp : EditResp)
deriving DecidableEq

/-- The dictionary returned by `edit_page` on success:
`{"success": True, "revid": ..., "page": title}`. -/
structure EditOk where
  success : Bool
  revid : Nat
  page : String
deriving DecidableEq

/-- Observable events of one `edit_page` call: the CSRF (write) token fetch
of an attempt, and the edit submission of an attempt carrying the token it
sends. -/
inductive EditEv where
  | csrfFetch (attempt : Nat)
  | editSubmit (attempt : Nat) (tok : String)
deriving DecidableEq

/-- The attempt loop of `edit_page` (`for attempt in range(retries + 1)`),
translated with `rem` = number of loop iterations still available and
`attempt` = the current loop index.  Each iteration fetches a CSRF token,
posts the edit, and classifies failures exactly as the two `except` clauses
do: an `HTTPError` is re-raised unless its status is 429 and
`attempt < retries`; any other exception is re-raised unless
`attempt < retries`.  Falling off the loop yields `none` (Python's implicit
`None` return).  The second component is the event trace.  The `content`
and `summary` arguments of the source only feed the POST payload and do not
affect control flow, so they are not parameters of the model. -/
def editLoop (O : Nat → AttemptResp) (title : String) (retries : Int) :
    Nat → Nat → Option (Except PyErr EditOk) × List EditEv
  | _, 0 => (none, [])
  | attempt, rem + 1 =>
    match O attempt with
    | .csrfFail =>
      if (attempt : Int) < retries then
        let r := editLoop O title retries (attempt + 1) rem
        (r.1, .csrfFetch attempt :: r.2)
      else
        (some (.error (.runtimeError "Could not retrieve CSRF token")), [.csrfFetch attempt])
    | .csrfOk tok resp =>
      match resp with
      | .netErr m =>
        if (attempt : Int) < retries then
          let r := editLoop O title retries (attempt + 1) rem
          (r.1, .csrfFetch attempt :: .editSubmit attempt tok :: r.2)
        else
          (some (.error (.connError m)), [.csrfFetch attempt, .editSubmit attempt tok])
      | .httpErr s =>
        if s = 429 ∧ (attempt : Int) < retries then
          let r := editLoop O title retries (attempt + 1) rem
          (r.1, .csrfFetch attempt :: .editSubmit attempt tok :: r.2)
        else
          (some (.error (.httpError s)), [.csrfFetch attempt, .editSubmit attempt tok])
      | .envelope res msg rev =>
        if res = "Success" then
          (some (.ok ⟨true, rev, title⟩), [.csrfFetch attempt, .editSubmit attempt tok])
        else if (attempt : Int) < retries then
          let r := editLoop O title retries (attempt + 1) rem
          (r.1, .csrfFetch attempt :: .editSubmit attempt tok :: r.2)
        else
          (some (.error (.runtimeError (msg.getD "Edit failed"))),
           [.csrfFetch attempt, .editSubmit attempt tok])

/-- `edit_page(session, title, content, summary, retries)` of
`wiki_publish.py`: runs the attempt loop from index 0 with
`range(retries + 1)` iterations. -/
def edit_page (O : Nat → AttemptResp) (title : String) (retries : Int) :
    Option (Except PyErr EditOk) × List EditEv :=
  editLoop O title retries 0 (retries + 1).toNat

/-- Number of CSRF (write) token fetches in a trace. -/
def countCsrf (l : List EditEv) : Nat :=
  l.countP fun e => match e with | .csrfFetch _ => true | _ => false

/-- The attempt's response is a parsed edit envelope with
`result == "Success"`. -/
def succEnvelope : AttemptResp → Bool
  | .csrfOk _ (.envelope res _ _) => res == "Success"
  | _ => false

/-- The exception the attempt raises when its response is not a success
envelope, exactly as raised at the corresponding site of `edit_page` /
`get_csrf_token`. -/
def attemptErr : AttemptResp → PyErr
  | .csrfFail => .runtimeError "Could not retrieve CSRF token"
  | .csrfOk _ (.netErr m) => .connError m
  | .csrfOk _ (.httpErr s) => .httpError s
  | .csrfOk _ (.envelope _ msg _) => .runtimeError (msg.getD "Edit failed")

/-- The attempt's outcome falls into the broad catch-all `except` clause of
`edit_page` (everything except an `HTTPError` and except success). -/
def retryableResp : AttemptResp → Bool
  | .csrfFail => true
  | .csrfOk _ (.netErr _) => true
  | .csrfOk _ (.httpErr _) => false
  | .csrfOk _ (.envelope res _ _) => !(res == "Success")

/-- Configured bot name, `DEFAULT_BOT_SUFFIX = "PsiAdirondackBot"`. -/
def DEFAULT_BOT_SUFFIX : String := "PsiAdirondackBot"

/-- Remote response to one round-trip of the login / bot-password protocol,
indexed by the session's call counter.  Token queries expect `tokenOk`; a
login POST expects `loginOk` / `loginRej` / `loginHttp`; a `botpasswords`
POST expects one of the `botpw` constructors.  A response of the wrong kind
models a malformed JSON body and is handled the way the source handles it
(`.get` with a default, or the blanket `except` of the token helpers). -/
inductive WikiResp where
  | tokenOk (tok : String)
  | tokenFail
  | loginOk
  | loginRej (code : String) (message : Option String)
  | loginHttp (status : Nat)
  | botpwOk (password : String)
  | botpwRej (message : Option String)
  | botpwHttp (status : Nat)
deriving DecidableEq

/-- Result of a fallible call in the login protocol: normal return, raised
exception, or fuel exhaustion (the Python code would still be recursing). -/
inductive AuthRes (α : Type) where
  | ok (a : α)
  | err (e : PyErr)
  | fuelOut
deriving DecidableEq

/-- Observable events of the login / bot-password protocol: a login POST
with the identity it sends, entry into `create_bot_password`, and a
successful bot-password creation with the scoped identity and the
provisioned secret. -/
inductive AuthEv where
  | loginPost (username : String)
  | provisionStart (username : String)
  | provisionOk (scopedUser : String) (password : String)
deriving DecidableEq

mutual

/-- `login(session, username, password, token)` of `wiki_publish.py`.
Returns a `(final_username_used, bot_password_if_created)` pair, the next
call-counter value, and the event trace.  On `login.result == "Success"` it
returns `(username, None)`.  On `login.code == "WrongPass"` with `"@" not
in username` it calls `create_bot_password` and then recurses with the
scoped credential and a fresh login token; note that the recursive call's
result is returned unchanged, so its second component is the inner call's
`None`, not the created password.  Every other outcome raises
`RuntimeError("Login failed: " + message)` (with default
`"Unknown error"`); the `except` clause only logs and re-raises. -/
def loginR (O : Nat → WikiResp) : (fuel : Nat) → (username password token : String) →
    (i : Nat) → AuthRes (String × Option String) × Nat × List AuthEv
  | 0, _, _, _, i => (.fuelOut, i, [])
  | fuel + 1, username, password, _token, i =>
    match O i with
    | .loginOk => (.ok (username, none), i + 1, [.loginPost username])
    | .loginRej code msg =>
      if code = "WrongPass" ∧ ¬ username.data.contains '@' then
        match create_bot_passwordR O DEFAULT_BOT_SUFFIX fuel username password (i + 1) with
        | (.ok (bot_username, bot_password), j, ev) =>
          match O j with
          | .tokenOk t2 =>
            let r := loginR O fuel bot_username bot_password t2 (j + 1)
            (r.1, r.2.1, .loginPost username :: (ev ++ r.2.2))
          | _ =>
            (.err (.runtimeError "Could not retrieve login token"), j + 1,
             .loginPost username :: ev)
        | (.err e, j, ev) => (.err e, j, .loginPost username :: ev)
        | (.fuelOut, j, ev) => (.fuelOut, j, .loginPost username :: ev)
      else
        (.err (.runtimeError ("Login failed: " ++ msg.getD "Unknown error")), i + 1,
         [.loginPost username])
    | .loginHttp s => (.err (.httpError s), i + 1, [.loginPost username])
    | _ => (.err (.runtimeError "Login failed: Unknown error"), i + 1, [.loginPost username])

/-- `create_bot_password(session, main_username, main_password, botname)` of
`wiki_publish.py`: fetches a login token, re-authenticates by calling the
full `login` with the same primary credentials, fetches a CSRF token, posts
the `botpasswords` action, and on `status == "success"` returns
`(f"{main_username}@{botname}", result["password"])`; otherwise raises
`RuntimeError(result.get("message", "Bot creation failed"))`.  The `except`
clause only logs and re-raises. -/
def create_bot_passwordR (O : Nat → WikiResp) (botname : String) :
    (fuel : Nat) → (main_username main_password : String) → (i : Nat) →
    AuthRes (String × String) × Nat × List AuthEv
  | 0, _, _, i => (.fuelOut, i, [])
  | fuel + 1, main_username, main_password, i =>
    match O i with
    | .tokenOk login_token =>
      match loginR O fuel main_username main_password login_token (i + 1) with
      | (.ok _, j, ev) =>
        match O j with
        | .tokenOk _csrf_token =>
          match O (j + 1) with
          | .botpwOk pw =>
            (.ok (main_username ++ "@" ++ botname, pw), j + 2,
             .provisionStart main_username ::
               (ev ++ [.provisionOk (main_username ++ "@" ++ botname) pw]))
          | .botpwRej msg =>
            (.err (.runtimeError (msg.getD "Bot creation failed")), j + 2,
             .provisionStart main_username :: ev)
          | .botpwHttp s =>
            (.err (.httpError s), j + 2, .provisionStart main_username :: ev)
          | _ =>
            (.err (.runtimeError "Bot creation failed"), j + 2,
             .provisionStart main_username :: ev)
        | _ =>
          (.err (.runtimeError "Could not retrieve CSRF token"), j + 1,
           .provisionStart main_username :: ev)
      | (.err e, j, ev) => (.err e, j, .provisionStart main_username :: ev)
      | (.fuelOut, j, ev) => (.fuelOut, j, .provisionStart main_username :: ev)
    | _ =>
      (.err (.runtimeError "Could not retrieve login token"), i + 1,
       [.provisionStart main_username])

end

/-- Number of `create_bot_password` invocations recorded in a trace. -/
def countProvisions (l : List AuthEv) : Nat :=
  l.countP fun e => match e with | .provisionStart _ => true | _ => false

/-- Remote response to an edit POST in `wiki_client.py`: either the JSON
body has an `edit` envelope with a `result` and a `newrevid`, or it has
none (`"edit" in result` is false). -/
inductive ClientEditResp where
  | envelope (result : String) (newrevid : Nat)
  | noEnvelope
deriving DecidableEq

/-- The dictionary returned by `publish_page` on success. -/
structure PubOk where
  status : String
  page : String
  revid : Nat
deriving DecidableEq

/-- `publish_page(title, content, summary)` of
`psi_wiki_integration/wiki_client.py`, modelled from the edit POST on:
returns the success dictionary iff `"edit" in result and
result["edit"]["result"] == "Success"`, and otherwise raises
`RuntimeError(result)` (modelled as an error carrying the result's
`result` field or a marker for a missing envelope). -/
def publish_page (edit : ClientEditResp) (title : String) : Except String PubOk :=
  match edit with
  | .envelope res rev =>
    if res = "Success" then .ok ⟨"success", title, rev⟩
    else .error res
  | .noEnvelope => .error "no edit envelope"

/-- Response to the revision-content GET of `copy_page`: the sandbox page's
content, or a body without `pages`/`revisions` entries. -/
inductive FetchResp where
  | ok (content : String)
  | missing
deriving DecidableEq

/-- The dictionary returned by `copy_page` on success. -/
structure CopyOk where
  status : String
  fromTitle : String
  toTitle : String
deriving DecidableEq

/-- Observable events of one `copy_page` call after the session and CSRF
token are in hand: the content GET and the edit POST (the only write). -/
inductive CopyEv where
  | fetchContent
  | editSubmit (toTitle : String) (content : String)
deriving DecidableEq

/-- Characters stripped by Python's `str.strip()` (the ASCII whitespace
characters). -/
def pySpace (c : Char) : Bool :=
  c = ' ' || c = '\t' || c = '\n' || c = '\x0d' || c = '\x0b' || c = '\x0c'

/-- Python `content.strip()`. -/
def pyStrip (s : String) : String :=
  ⟨((s.data.dropWhile pySpace).reverse.dropWhile pySpace).reverse⟩

/-- Python `content.lower()` (ASCII case folding). -/
def pyLower (s : String) : String :=
  ⟨s.data.map Char.toLower⟩

/-- `pat` is a prefix of `cs` — Python's `str.startswith`. -/
def beginsWith : (pat : List Char) → (cs : List Char) → Bool
  | [], _ => true
  | _ :: _, [] => false
  | a :: pat, b :: cs => a = b && beginsWith pat cs

/-- The redirect-marker test of `copy_page`:
`content.strip().lower().startswith("#redirect")`. -/
def isRedirect (content : String) : Bool :=
  beginsWith "#redirect".data (pyLower (pyStrip content)).data

/-- Message of the `RuntimeError` raised by the `copy_page` safeguard. -/
def redirectMsg : String :=
  "Sandbox page is a redirect. Remove \x27#REDIRECT\x27 before moving to main space."

/-- `copy_page(from_title, to_title, reason)` of
`psi_wiki_integration/wiki_client.py`, modelled from the content GET on
(`make_session()` and `get_csrf_token(session)` precede it and perform no
edit).  Fetches the sandbox content; a body without revisions raises; a
content that passes the redirect test raises before the edit POST; only
otherwise is the edit POST issued, and its envelope is checked exactly as
in `publish_page`. -/
def copy_page (fetch : FetchResp) (edit : ClientEditResp)
    (from_title to_title : String) : Except String CopyOk × List CopyEv :=
  match fetch with
  | .missing => (.error "Failed to fetch content from sandbox page", [.fetchContent])
  | .ok content =>
    if isRedirect content then
      (.error redirectMsg, [.fetchContent])
    else
      match edit with
      | .envelope res _ =>
        if res = "Success" then
          (.ok ⟨"success", from_title, to_title⟩, [.fetchContent, .editSubmit to_title content])
        else
          (.error res, [.fetchContent, .editSubmit to_title content])
      | .noEnvelope => (.error "no edit envelope", [.fetchContent, .editSubmit to_title content])

/-- Log lines of `main` that matter here: the success report, the
bot-credential report, and the error report of the `except` clause. -/
inductive MainEv where
  | successLog (title : String) (revid : Nat) (user : String)
  | credentialLog (user : String) (password : String)
  | errorLog (msg : String)
deriving DecidableEq

/-- The `str(e)` of a modelled Python exception. -/
def pyErrMsg : PyErr → String
  | .httpError s => "HTTPError " ++ toString s
  | .runtimeError m => m
  | .connError m => m

/-- Outcome of one `main` run: result, log lines, and the traces of the
login phase and the edit phase. -/
structure MainOut where
  res : AuthRes Unit
  log : List MainEv
  authEv : List AuthEv
  editEv : List EditEv
deriving DecidableEq

/-- The publishing part of `main()` in `wiki_publish.py` (the `with
make_session()` block and the surrounding `try`/`except`): fetch a login
token, call `login`, call `edit_page` with the default `retries = 2`, log
the success report, and log the credential report only inside the success
branch and only when `bot_password` is not `None`; any exception is logged
as `"Publishing failed: ..."` and re-raised. -/
def mainRun (AO : Nat → WikiResp) (EO : Nat → AttemptResp) (fuel : Nat)
    (username password title : String) : MainOut :=
  match AO 0 with
  | .tokenOk login_token =>
    match loginR AO fuel username password login_token 1 with
    | (.ok (final_username, bot_password), _, aev) =>
      let er := edit_page EO title 2
      match er.1 with
      | some (.ok result) =>
        if result.success then
          { res := .ok (),
            log := .successLog title result.revid final_username ::
              (match bot_password with
               | some pw => [.credentialLog final_username pw]
               | none => []),
            authEv := aev, editEv := er.2 }
        else
          { res := .err (.runtimeError "Publishing failed"),
            log := [.errorLog "Publishing failed: Publishing failed"],
            authEv := aev, editEv := er.2 }
      | some (.error e) =>
        { res := .err e, log := [.errorLog ("Publishing failed: " ++ pyErrMsg e)],
          authEv := aev, editEv := er.2 }
      | none =>
        { res := .err (.runtimeError "TypeError"),
          log := [.errorLog "Publishing failed: TypeError"],
          authEv := aev, editEv := er.2 }
    | (.err e, _, aev) =>
      { res := .err e, log := [.errorLog ("Publishing failed: " ++ pyErrMsg e)],
        authEv := aev, editEv := [] }
    | (.fuelOut, _, aev) => { res := .fuelOut, log := [], authEv := aev, editEv := [] }
  | _ =>
    { res := .err (.runtimeError "Could not retrieve login token"),
      log := [.errorLog "Publishing failed: Could not retrieve login token"],
      authEv := [], editEv := [] }

/-! ## Concrete oracles used in counterexamples and witnesses -/

/-- A remote that answers `WrongPass` to every login POST and a valid token
to every token query (the behaviour of the real service when the primary
password is simply wrong: every round-trip of the alternating
token-query/login-POST sequence gets the same answer). -/
def wrongPassLoop : Nat → WikiResp :=
  fun n => if n % 2 = 0 then .loginRej "WrongPass" none else .tokenOk "T"

/-- An edit oracle whose first attempt gets HTTP 500 from the edit POST. -/
def http500Once : Nat → AttemptResp :=
  fun n => if n = 0 then .csrfOk "T" (.httpErr 500) else .csrfFail

/-- A session oracle for a full `main` run in which the primary login fails
with `WrongPass`, bot-password provisioning succeeds with secret
`"S3CRET"`, and the scoped login succeeds: call 0 is `main`'s login-token
query, 1 the primary login POST, 2–5 the inner token/login/CSRF/bot
requests of `create_bot_password`, 6 the fresh login-token query, 7 the
scoped login POST. -/
def provisionedOracle : Nat → WikiResp := fun n =>
  match n with
  | 0 => .tokenOk "L1"
  | 1 => .loginRej "WrongPass" none
  | 2 => .tokenOk "L2"
  | 3 => .loginOk
  | 4 => .tokenOk "C"
  | 5 => .botpwOk "S3CRET"
  | 6 => .tokenOk "L3"
  | _ => .loginOk

/-- A remote on which `create_bot_password` succeeds outright: token,
successful re-login, CSRF token, bot password `"S"`. -/
def cbpOracle : Nat → WikiResp := fun n =>
  match n with
  | 0 => .tokenOk "L"
  | 1 => .loginOk
  | 2 => .tokenOk "C"
  | _ => .botpwOk "S"

/-- An edit oracle rate-limited on the first attempt and successful on the
second. -/
def rateLimitedOnce : Nat → AttemptResp := fun n =>
  if n = 0 then .csrfOk "T" (.httpErr 429) else .csrfOk "U" (.envelope "Success" none 7)

/-- Attempt index of an `edit_page` event. -/
def evIdx : EditEv → Nat
  | .csrfFetch i => i
  | .editSubmit i _ => i

/-! ## Theorems -/

/-- Joint induction for the `wrongPassLoop` remote: at every even call
counter a `login` call only exhausts its fuel (the Python code recurses
forever), and at every odd counter so does a `create_bot_password` call. -/
theorem wrongPassLoop_fuelOut : ∀ fuel,
    (∀ i t, i % 2 = 0 → (loginR wrongPassLoop fuel "alice" "pw" t i).1 = .fuelOut) ∧
    (∀ i, i % 2 = 1 →
      (create_bot_passwordR wrongPassLoop DEFAULT_BOT_SUFFIX fuel "alice" "pw" i).1
        = .fuelOut) := by
  intro fuel
  induction fuel with
  | zero => exact ⟨fun _ _ _ => rfl, fun _ _ => rfl⟩
  | succ f ih =>
    constructor
    · intro i t hi
      have hO : wrongPassLoop i = .loginRej "WrongPass" none := by
        simp [wrongPassLoop, hi]
      have hc := ih.2 (i + 1) (by omega)
      rcases hcb : create_bot_passwordR wrongPassLoop DEFAULT_BOT_SUFFIX f "alice" "pw" (i + 1)
        with ⟨res, j, ev⟩
      rw [hcb] at hc
      simp at hc
      subst hc
      simp [loginR, hO, hcb, show ¬ "alice".data.contains '@' = true by decide]
    · intro i hi
      have hO : wrongPassLoop i = .tokenOk "T" := by
        simp [wrongPassLoop, hi]
      have hl := ih.1 (i + 1) "T" (by omega)
      rcases hlr : loginR wrongPassLoop f "alice" "pw" "T" (i + 1) with ⟨res, j, ev⟩
      rw [hlr] at hl
      simp at hl
      subst hl
      simp [create_bot_passwordR, hO, hlr]

/-- C1: the claim fails on the code.  With a remote that reports
`WrongPass` for every login attempt of the primary credential `"alice"`
(whose identity contains no `'@'`), `login` never terminates — for every
fuel bound it runs out of fuel — because `create_bot_password`
re-enters the full `login` (including its fallback) with the same failing
primary credentials; and far from provisioning exactly once, the run has
already entered provisioning at least twice (in fact three times) within
fuel 6. -/
theorem login_wrongpass_fallback_diverges :
    (∀ fuel, (loginR wrongPassLoop fuel "alice" "pw" "T" 0).1 = .fuelOut) ∧
      2 ≤ countProvisions (loginR wrongPassLoop 6 "alice" "pw" "T" 0).2.2 :=
  ⟨fun fuel => (wrongPassLoop_fuelOut fuel).1 0 "T" rfl, by decide⟩

/-- C2 counterexample: an HTTP 500 on the first edit attempt is a failure
other than HTTP 429, attempts remain (`retries = 2`), yet `edit_page`
raises immediately instead of retrying — the whole call performs a single
attempt (one CSRF fetch, one submission). -/
theorem edit_page_http500_not_retried :
    (edit_page http500Once "Page" 2).1 = some (.error (.httpError 500)) ∧
      (edit_page http500Once "Page" 2).2 = [.csrfFetch 0, .editSubmit 0 "T"] := by
  decide

/-- C3: the claim fails on the code.  In a run whose primary login fails
with `WrongPass`, whose bot-password provisioning succeeds with secret
`"S3CRET"` (the `provisionOk` event is in the login trace), and whose
publish then fails, `main` logs only the error line — the provisioned
credential is never reported; and even when the publish succeeds the log
holds only the success line, because the recursive `login` call returns
`(bot_username, None)`, discarding the created password. -/
theorem provisioned_credential_never_reported :
    AuthEv.provisionOk "alice@PsiAdirondackBot" "S3CRET"
        ∈ (mainRun provisionedOracle (fun _ => .csrfFail) 4 "alice" "pw" "Page").authEv ∧
      (mainRun provisionedOracle (fun _ => .csrfFail) 4 "alice" "pw" "Page").log
        = [.errorLog "Publishing failed: Could not retrieve CSRF token"] ∧
      (mainRun provisionedOracle (fun _ => .csrfFail) 4 "alice" "pw" "Page").res
        = .err (.runtimeError "Could not retrieve CSRF token") ∧
      (mainRun provisionedOracle (fun _ => .csrfOk "T" (.envelope "Success" none 9)) 4
          "alice" "pw" "Page").log
        = [.successLog "Page" 9 "alice@PsiAdirondackBot"] := by
  decide

/-- C6: whenever `create_bot_password` returns successfully for a primary
identity (in particular one containing no `'@'`), the scoped identity it
returns is exactly the primary identity, then `'@'`, then the configured
bot name. -/
theorem create_bot_password_scoped_identity (O : Nat → WikiResp) (botname : String)
    (fuel : Nat) (main_username main_password : String) (i : Nat)
    (hu : main_username.data.contains '@' = false) :
    ∀ r j ev, create_bot_passwordR O botname fuel main_username main_password i
        = (.ok r, j, ev) →
      r.1 = main_username ++ "@" ++ botname := by
  intro r j ev h
  match fuel with
  | 0 => simp [create_bot_passwordR] at h
  | f + 1 =>
    rw [create_bot_passwordR] at h
    repeat' split at h
    all_goals simp_all
    obtain ⟨h1, -, -⟩ := h
    subst h1
    rfl

/-- Witness for C6 at a concrete oracle. -/
theorem create_bot_password_scoped_identity_witness :
    ("alice@PsiAdirondackBot", "S").1 = "alice" ++ "@" ++ "PsiAdirondackBot" :=
  create_bot_password_scoped_identity cbpOracle "PsiAdirondackBot" 2 "alice" "pw" 0
    (by decide) ("alice@PsiAdirondackBot", "S") 4
    [.provisionStart "alice", .loginPost "alice", .provisionOk "alice@PsiAdirondackBot" "S"]
    (by decide)

/-- C7: a primary credential whose first login attempt succeeds makes
`login` return the input identity with no bot password, after exactly that
one login POST. -/
theorem login_first_attempt_success (O : Nat → WikiResp) (fuel : Nat)
    (username password token : String) (i : Nat) (h : O i = .loginOk) :
    loginR O (fuel + 1) username password token i
      = (.ok (username, none), i + 1, [.loginPost username]) := by
  simp [loginR, h]

/-- Witness for C7 at a concrete oracle. -/
theorem login_first_attempt_success_witness :
    loginR (fun _ => .loginOk) 1 "alice" "pw" "T" 0
      = (.ok ("alice", none), 1, [.loginPost "alice"]) :=
  login_first_attempt_success (fun _ => .loginOk) 0 "alice" "pw" "T" 0 rfl

/-- C8: a fetched content that, stripped and lowercased, begins with the
redirect marker makes `copy_page` fail with the safeguard's message, and
the trace contains no edit submission. -/
theorem copy_page_redirect_guard (fetch : FetchResp) (edit : ClientEditResp)
    (from_title to_title content : String)
    (hf : fetch = .ok content) (hr : isRedirect content = true) :
    (copy_page fetch edit from_title to_title).1 = .error redirectMsg ∧
      ∀ t c, CopyEv.editSubmit t c ∉ (copy_page fetch edit from_title to_title).2 := by
  subst hf
  simp [copy_page, hr]

/-- Witness for C8 at a concrete redirect page. -/
theorem copy_page_redirect_guard_witness :
    (copy_page (.ok "  #REDIRECT [[Target]]") (.envelope "Success" 3)
        "User:Example/sandbox" "Article").1 = .error redirectMsg ∧
      ∀ t c, CopyEv.editSubmit t c
        ∉ (copy_page (.ok "  #REDIRECT [[Target]]") (.envelope "Success" 3)
            "User:Example/sandbox" "Article").2 :=
  copy_page_redirect_guard _ _ _ _ "  #REDIRECT [[Target]]" rfl (by decide)

/-- A loop with at least one iteration left fetches a token for the current
attempt. -/
theorem editLoop_fetch_self (O : Nat → AttemptResp) (title : String) (retries : Int)
    (a rem : Nat) :
    EditEv.csrfFetch a ∈ (editLoop O title retries a (rem + 1)).2 := by
  cases hO : O a with
  | csrfFail =>
    simp only [editLoop, hO]
    split <;> simp
  | csrfOk tok resp =>
    cases resp <;> simp only [editLoop, hO] <;> (repeat' split) <;> simp

/-- Every event of a loop step belongs to the current attempt or to the
rest of the loop. -/
theorem editLoop_step_mem (O : Nat → AttemptResp) (title : String) (retries : Int)
    (a rem : Nat) (e : EditEv) (he : e ∈ (editLoop O title retries a (rem + 1)).2) :
    e = .csrfFetch a ∨ (∃ tok, e = .editSubmit a tok) ∨
      e ∈ (editLoop O title retries (a + 1) rem).2 := by
  cases hO : O a with
  | csrfFail =>
    simp only [editLoop, hO] at he
    split at he <;> simp at he <;> tauto
  | csrfOk tok resp =>
    cases resp with
    | netErr m =>
      simp only [editLoop, hO] at he
      split at he <;> simp at he <;> tauto
    | httpErr s =>
      simp only [editLoop, hO] at he
      split at he <;> simp at he <;> tauto
    | envelope res msg rev =>
      simp only [editLoop, hO] at he
      (repeat' split at he) <;> simp at he <;> tauto

/-- Events in the loop's trace never refer to an attempt index below the
current one. -/
theorem editLoop_ev_ge (O : Nat → AttemptResp) (title : String) (retries : Int) :
    ∀ rem a, ∀ e ∈ (editLoop O title retries a rem).2, a ≤ evIdx e := by
  intro rem
  induction rem with
  | zero => intro a e he; simp [editLoop] at he
  | succ r ih =>
    intro a e he
    rcases editLoop_step_mem O title retries a r e he with h | ⟨tok, h⟩ | h
    · subst h; simp [evIdx]
    · subst h; simp [evIdx]
    · exact le_trans (by omega) (ih (a + 1) e h)

/-- As long as iterations are available and the iteration budget exceeds
the retry bound, the loop never falls through. -/
theorem editLoop_ne_none (O : Nat → AttemptResp) (title : String) (retries : Int) :
    ∀ (rem a : Nat), 1 ≤ rem → retries < (a : Int) + (rem : Int) →
      (editLoop O title retries a rem).1 ≠ none := by
  intro rem
  induction rem with
  | zero => intro a h1 _; omega
  | succ r ih =>
    intro a _ h2
    cases hO : O a with
    | csrfFail =>
      simp only [editLoop, hO]
      split
      · next hlt => exact ih (a + 1) (by omega) (by push_cast; push_cast at h2; omega)
      · simp
    | csrfOk tok resp =>
      cases resp with
      | netErr m =>
        simp only [editLoop, hO]
        split
        · next hlt => exact ih (a + 1) (by omega) (by push_cast; push_cast at h2; omega)
        · simp
      | httpErr s =>
        simp only [editLoop, hO]
        split
        · next hc =>
          have hlt := hc.2
          exact ih (a + 1) (by omega) (by push_cast; push_cast at h2; omega)
        · simp
      | envelope res msg rev =>
        simp only [editLoop, hO]
        split
        · simp
        · split
          · next hlt => exact ih (a + 1) (by omega) (by push_cast; push_cast at h2; omega)
          · simp

/-- C10: for every `retries ≥ 0`, `edit_page` either returns the success
dictionary or raises — the attempt loop never completes all iterations
without returning or raising, so the implicit `None` return is
unreachable. -/
theorem edit_page_never_none (O : Nat → AttemptResp) (title : String) (retries : Int)
    (h : 0 ≤ retries) :
    (edit_page O title retries).1 ≠ none := by
  have h1 : 1 ≤ (retries + 1).toNat := by omega
  have h2 : retries < (0 : Int) + ((retries + 1).toNat : Int) := by omega
  exact editLoop_ne_none O title retries (retries + 1).toNat 0 h1 h2

/-- Witness for C10 at a concrete oracle. -/
theorem edit_page_never_none_witness :
    (0 : Int) ≤ 2 ∧ (edit_page http500Once "Page" 2).1 ≠ none :=
  ⟨by decide, edit_page_never_none http500Once "Page" 2 (by decide)⟩

/-- The token-fetch count of the loop is bounded by the remaining
iteration count. -/
theorem editLoop_countCsrf_le (O : Nat → AttemptResp) (title : String) (retries : Int) :
    ∀ rem a, countCsrf (editLoop O title retries a rem).2 ≤ rem := by
  intro rem
  induction rem with
  | zero => intro a; simp [editLoop, countCsrf]
  | succ r ih =>
    intro a
    cases hO : O a with
    | csrfFail =>
      simp only [editLoop, hO]
      split
      · have := ih (a + 1); simp [countCsrf] at *; omega
      · simp [countCsrf]
    | csrfOk tok resp =>
      cases resp with
      | netErr m =>
        simp only [editLoop, hO]
        split
        · have := ih (a + 1); simp [countCsrf] at *; omega
        · simp [countCsrf]
      | httpErr s =>
        simp only [editLoop, hO]
        split
        · have := ih (a + 1); simp [countCsrf] at *; omega
        · simp [countCsrf]
      | envelope res msg rev =>
        simp only [editLoop, hO]
        split
        · simp [countCsrf]
        · split
          · have := ih (a + 1); simp [countCsrf] at *; omega
          · simp [countCsrf]

/-- With every CSRF fetch failing, the loop performs one fetch per
available iteration and ends by raising the token error. -/
theorem editLoop_csrfFail_run (title : String) (retries : Int) :
    ∀ (rem a : Nat), (a : Int) + (rem : Int) = retries + 1 →
      countCsrf (editLoop (fun _ => .csrfFail) title retries a rem).2 = rem ∧
        (1 ≤ rem →
          (editLoop (fun _ => .csrfFail) title retries a rem).1
            = some (.error (.runtimeError "Could not retrieve CSRF token"))) := by
  intro rem
  induction rem with
  | zero => intro a _; exact ⟨by simp [editLoop, countCsrf], by omega⟩
  | succ r ih =>
    intro a hinv
    simp only [editLoop]
    split
    · next hlt =>
      have hr : 1 ≤ r := by push_cast at hinv; omega
      have := ih (a + 1) (by push_cast; push_cast at hinv; omega)
      refine ⟨?_, fun _ => this.2 hr⟩
      simp [countCsrf] at *
      omega
    · next hge =>
      have hr : r = 0 := by push_cast at hinv; omega
      subst hr
      exact ⟨by simp [countCsrf], fun _ => rfl⟩

/-- C5: for every `retries ≥ 0`, one `edit_page` call performs at most
`retries + 1` CSRF (write token) fetches whatever the remote does, and
when the token fetch keeps failing it is retried `retries` times — exactly
`retries + 1` fetches — before the token error is raised. -/
theorem edit_page_csrf_fetch_bound (title : String) (retries : Int) (h : 0 ≤ retries) :
    (∀ O, countCsrf (edit_page O title retries).2 ≤ (retries + 1).toNat) ∧
      countCsrf (edit_page (fun _ => .csrfFail) title retries).2 = (retries + 1).toNat ∧
      (edit_page (fun _ => .csrfFail) title retries).1
        = some (.error (.runtimeError "Could not retrieve CSRF token")) := by
  have hinv : ((0 : Nat) : Int) + (((retries + 1).toNat : Nat) : Int) = retries + 1 := by
    omega
  have hrun := editLoop_csrfFail_run title retries (retries + 1).toNat 0 hinv
  exact ⟨fun O => editLoop_countCsrf_le O title retries (retries + 1).toNat 0,
    hrun.1, hrun.2 (by omega)⟩

/-- Witness for C5 at `retries = 2`. -/
theorem edit_page_csrf_fetch_bound_witness :
    countCsrf (edit_page (fun _ => .csrfFail) "Page" 2).2 = ((2 : Int) + 1).toNat :=
  (edit_page_csrf_fetch_bound "Page" 2 (by decide)).2.1

/-- The loop returns the success dictionary exactly when one of the
attempts it performed got a success envelope. -/
theorem editLoop_ok_iff (O : Nat → AttemptResp) (title : String) (retries : Int) :
    ∀ rem a,
      (∃ s, (editLoop O title retries a rem).1 = some (.ok s)) ↔
        ∃ i, EditEv.csrfFetch i ∈ (editLoop O title retries a rem).2 ∧
          succEnvelope (O i) = true := by
  intro rem
  induction rem with
  | zero => intro a; simp [editLoop]
  | succ r ih =>
    intro a
    cases hO : O a with
    | csrfFail =>
      simp only [editLoop, hO]
      split
      · constructor
        · rintro ⟨s, hs⟩
          obtain ⟨i, hi, hsu⟩ := (ih (a + 1)).1 ⟨s, hs⟩
          exact ⟨i, by simp [hi], hsu⟩
        · rintro ⟨i, hi, hsu⟩
          simp at hi
          rcases hi with hi | hi
          · subst hi; simp [succEnvelope, hO] at hsu
          · exact (ih (a + 1)).2 ⟨i, hi, hsu⟩
      · constructor
        · rintro ⟨s, hs⟩; simp at hs
        · rintro ⟨i, hi, hsu⟩
          simp at hi
          subst hi; simp [succEnvelope, hO] at hsu
    | csrfOk tok resp =>
      cases resp with
      | netErr m =>
        simp only [editLoop, hO]
        split
        · constructor
          · rintro ⟨s, hs⟩
            obtain ⟨i, hi, hsu⟩ := (ih (a + 1)).1 ⟨s, hs⟩
            exact ⟨i, by simp [hi], hsu⟩
          · rintro ⟨i, hi, hsu⟩
            simp at hi
            rcases hi with hi | hi
            · subst hi; simp [succEnvelope, hO] at hsu
            · exact (ih (a + 1)).2 ⟨i, hi, hsu⟩
        · constructor
          · rintro ⟨s, hs⟩; simp at hs
          · rintro ⟨i, hi, hsu⟩
            simp at hi
            subst hi; simp [succEnvelope, hO] at hsu
      | httpErr s429 =>
        simp only [editLoop, hO]
        split
        · constructor
          · rintro ⟨s, hs⟩
            obtain ⟨i, hi, hsu⟩ := (ih (a + 1)).1 ⟨s, hs⟩
            exact ⟨i, by simp [hi], hsu⟩
          · rintro ⟨i, hi, hsu⟩
            simp at hi
            rcases hi with hi | hi
            · subst hi; simp [succEnvelope, hO] at hsu
            · exact (ih (a + 1)).2 ⟨i, hi, hsu⟩
        · constructor
          · rintro ⟨s, hs⟩; simp at hs
          · rintro ⟨i, hi, hsu⟩
            simp at hi
            subst hi; simp [succEnvelope, hO] at hsu
      | envelope res msg rev =>
        simp only [editLoop, hO]
        split
        · next hres =>
          constructor
          · rintro ⟨s, hs⟩
            exact ⟨a, by simp, by simp [succEnvelope, hO, hres]⟩
          · rintro ⟨i, hi, hsu⟩
            exact ⟨⟨true, rev, title⟩, rfl⟩
        · next hres =>
          split
          · constructor
            · rintro ⟨s, hs⟩
              obtain ⟨i, hi, hsu⟩ := (ih (a + 1)).1 ⟨s, hs⟩
              exact ⟨i, by simp [hi], hsu⟩
            · rintro ⟨i, hi, hsu⟩
              simp at hi
              rcases hi with hi | hi
              · subst hi; simp [succEnvelope, hO, hres] at hsu
              · exact (ih (a + 1)).2 ⟨i, hi, hsu⟩
          · constructor
            · rintro ⟨s, hs⟩; simp at hs
            · rintro ⟨i, hi, hsu⟩
              simp at hi
              subst hi; simp [succEnvelope, hO, hres] at hsu

/-- When the loop ends with a raised exception, that exception is the one
of the last attempt it performed. -/
theorem editLoop_error_last (O : Nat → AttemptResp) (title : String) (retries : Int) :
    ∀ rem a e, (editLoop O title retries a rem).1 = some (.error e) →
      ∃ i, EditEv.csrfFetch i ∈ (editLoop O title retries a rem).2 ∧
        e = attemptErr (O i) ∧
        ∀ j, EditEv.csrfFetch j ∈ (editLoop O title retries a rem).2 → j ≤ i := by
  intro rem
  induction rem with
  | zero => intro a e h; simp [editLoop] at h
  | succ r ih =>
    intro a e h
    cases hO : O a with
    | csrfFail =>
      by_cases hlt : (a : Int) < retries
      · simp only [editLoop, hO, if_pos hlt] at h ⊢
        obtain ⟨i, hi, he, hlast⟩ := ih (a + 1) e h
        refine ⟨i, by simp [hi], he, ?_⟩
        intro j hj
        simp at hj
        rcases hj with hj | hj
        · have := editLoop_ev_ge O title retries r (a + 1) _ hi
          simp [evIdx] at this
          omega
        · exact hlast j hj
      · simp only [editLoop, hO, if_neg hlt] at h ⊢
        simp at h
        subst h
        refine ⟨a, by simp, by simp [attemptErr, hO], ?_⟩
        intro j hj
        simp at hj
        omega
    | csrfOk tok resp =>
      cases resp with
      | netErr m =>
        by_cases hlt : (a : Int) < retries
        · simp only [editLoop, hO, if_pos hlt] at h ⊢
          obtain ⟨i, hi, he, hlast⟩ := ih (a + 1) e h
          refine ⟨i, by simp [hi], he, ?_⟩
          intro j hj
          simp at hj
          rcases hj with hj | hj
          · have := editLoop_ev_ge O title retries r (a + 1) _ hi
            simp [evIdx] at this
            omega
          · exact hlast j hj
        · simp only [editLoop, hO, if_neg hlt] at h ⊢
          simp at h
          subst h
          refine ⟨a, by simp, by simp [attemptErr, hO], ?_⟩
          intro j hj
          simp at hj
          omega
      | httpErr s'
      =>
        by_cases hc : s' = 429 ∧ (a : Int) < retries
        · simp only [editLoop, hO, if_pos hc] at h ⊢
          obtain ⟨i, hi, he, hlast⟩ := ih (a + 1) e h
          refine ⟨i, by simp [hi], he, ?_⟩
          intro j hj
          simp at hj
          rcases hj with hj | hj
          · have := editLoop_ev_ge O title retries r (a + 1) _ hi
            simp [evIdx] at this
            omega
          · exact hlast j hj
        · simp only [editLoop, hO, if_neg hc] at h ⊢
          simp at h
          subst h
          refine ⟨a, by simp, by simp [attemptErr, hO], ?_⟩
          intro j hj
          simp at hj
          omega
      | envelope res msg rev =>
        by_cases hres : res = "Success"
        · simp only [editLoop, hO, if_pos hres] at h
          simp at h
        · by_cases hlt : (a : Int) < retries
          · simp only [editLoop, hO, if_neg hres, if_pos hlt] at h ⊢
            obtain ⟨i, hi, he, hlast⟩ := ih (a + 1) e h
            refine ⟨i, by simp [hi], he, ?_⟩
            intro j hj
            simp at hj
            rcases hj with hj | hj
            · have := editLoop_ev_ge O title retries r (a + 1) _ hi
              simp [evIdx] at this
              omega
            · exact hlast j hj
          · simp only [editLoop, hO, if_neg hres, if_neg hlt] at h ⊢
            simp at h
            subst h
            refine ⟨a, by simp, by simp [attemptErr, hO], ?_⟩
            intro j hj
            simp at hj
            omega

/-- C4: `edit_page` returns the success dictionary exactly when one of the
attempts it actually performed received an `edit.result == "Success"`
envelope (the only success exit), and when it instead raises, the raised
error is the one observed at the last attempt performed (for a remote
rejection, `RuntimeError` with the last remote message); likewise
`publish_page` of `wiki_client.py` returns success exactly when the
response has a `Success` edit envelope. -/
theorem edit_page_success_iff (O : Nat → AttemptResp) (title : String) (retries : Int) :
    ((∃ s, (edit_page O title retries).1 = some (.ok s)) ↔
      ∃ i, EditEv.csrfFetch i ∈ (edit_page O title retries).2 ∧
        succEnvelope (O i) = true) ∧
    (∀ e, (edit_page O title retries).1 = some (.error e) →
      ∃ i, EditEv.csrfFetch i ∈ (edit_page O title retries).2 ∧
        e = attemptErr (O i) ∧
        ∀ j, EditEv.csrfFetch j ∈ (edit_page O title retries).2 → j ≤ i) ∧
    (∀ ce t, (∃ p, publish_page ce t = .ok p) ↔ ∃ rev, ce = .envelope "Success" rev) := by
  refine ⟨editLoop_ok_iff O title retries _ 0,
    fun e => editLoop_error_last O title retries _ 0 e, ?_⟩
  intro ce t
  constructor
  · rintro ⟨p, hp⟩
    cases ce with
    | envelope res rev =>
      by_cases h : res = "Success"
      · exact ⟨rev, by rw [h]⟩
      · simp [publish_page, h] at hp
    | noEnvelope => simp [publish_page] at hp
  · rintro ⟨rev, hrev⟩
    subst hrev
    exact ⟨⟨"success", t, rev⟩, rfl⟩

/-- Witness for C4: the success direction at a concrete rate-limited-once
oracle. -/
theorem edit_page_success_iff_witness :
    ∃ i, EditEv.csrfFetch i ∈ (edit_page rateLimitedOnce "Page" 2).2 ∧
      succEnvelope (rateLimitedOnce i) = true :=
  (edit_page_success_iff rateLimitedOnce "Page" 2).1.mp ⟨⟨true, 7, "Page"⟩, by decide⟩

/-- Every edit submission in the trace carries the token fetched by the
same attempt, immediately after that attempt's own fetch. -/
theorem editLoop_submit_token (O : Nat → AttemptResp) (title : String) (retries : Int) :
    ∀ (rem a i : Nat) (tok : String),
      EditEv.editSubmit i tok ∈ (editLoop O title retries a rem).2 →
      (∃ resp, O i = .csrfOk tok resp) ∧
        ∃ l1 l2, (editLoop O title retries a rem).2
          = l1 ++ EditEv.csrfFetch i :: EditEv.editSubmit i tok :: l2 := by
  intro rem
  induction rem with
  | zero => intro a i tok h; simp [editLoop] at h
  | succ r ih =>
    intro a i tok h
    cases hO : O a with
    | csrfFail =>
      by_cases hlt : (a : Int) < retries
      · simp only [editLoop, hO, if_pos hlt] at h ⊢
        simp at h
        obtain ⟨⟨resp, hresp⟩, l1, l2, hsplit⟩ := ih (a + 1) i tok h
        exact ⟨⟨resp, hresp⟩, .csrfFetch a :: l1, l2, by simp [hsplit]⟩
      · simp only [editLoop, hO, if_neg hlt] at h
        simp at h
    | csrfOk tok' resp =>
      cases resp with
      | netErr m =>
        by_cases hlt : (a : Int) < retries
        · simp only [editLoop, hO, if_pos hlt] at h ⊢
          simp at h
          rcases h with ⟨hia, hta⟩ | h
          · subst hia; subst hta
            exact ⟨⟨.netErr m, hO⟩, [], _, rfl⟩
          · obtain ⟨⟨resp2, hresp⟩, l1, l2, hsplit⟩ := ih (a + 1) i tok h
            exact ⟨⟨resp2, hresp⟩, .csrfFetch a :: .editSubmit a tok' :: l1, l2, by simp [hsplit]⟩
        · simp only [editLoop, hO, if_neg hlt] at h ⊢
          simp at h
          obtain ⟨hia, hta⟩ := h
          subst hia; subst hta
          exact ⟨⟨.netErr m, hO⟩, [], [], rfl⟩
      | httpErr s' =>
        by_cases hc : s' = 429 ∧ (a : Int) < retries
        · simp only [editLoop, hO, if_pos hc] at h ⊢
          simp at h
          rcases h with ⟨hia, hta⟩ | h
          · subst hia; subst hta
            exact ⟨⟨.httpErr s', hO⟩, [], _, rfl⟩
          · obtain ⟨⟨resp2, hresp⟩, l1, l2, hsplit⟩ := ih (a + 1) i tok h
            exact ⟨⟨resp2, hresp⟩, .csrfFetch a :: .editSubmit a tok' :: l1, l2, by simp [hsplit]⟩
        · simp only [editLoop, hO, if_neg hc] at h ⊢
          simp at h
          obtain ⟨hia, hta⟩ := h
          subst hia; subst hta
          exact ⟨⟨.httpErr s', hO⟩, [], [], rfl⟩
      | envelope res msg rev =>
        by_cases hres : res = "Success"
        · simp only [editLoop, hO, if_pos hres] at h ⊢
          simp at h
          obtain ⟨hia, hta⟩ := h
          subst hia; subst hta
          exact ⟨⟨.envelope res msg rev, hO⟩, [], [], rfl⟩
        · by_cases hlt : (a : Int) < retries
          · simp only [editLoop, hO, if_neg hres, if_pos hlt] at h ⊢
            simp at h
            rcases h with ⟨hia, hta⟩ | h
            · subst hia; subst hta
              exact ⟨⟨.envelope res msg rev, hO⟩, [], _, rfl⟩
            · obtain ⟨⟨resp2, hresp⟩, l1, l2, hsplit⟩ := ih (a + 1) i tok h
              exact ⟨⟨resp2, hresp⟩, .csrfFetch a :: .editSubmit a tok' :: l1, l2, by simp [hsplit]⟩
          · simp only [editLoop, hO, if_neg hres, if_neg hlt] at h ⊢
            simp at h
            obtain ⟨hia, hta⟩ := h
            subst hia; subst hta
            exact ⟨⟨.envelope res msg rev, hO⟩, [], [], rfl⟩

/-- C9: every edit submission of an `edit_page` call uses a token that was
fetched within the same attempt — the trace shows the fetch of that attempt
completing immediately before the submission — so a token is never cached
across retry attempts. -/
theorem edit_page_fresh_token_per_attempt (O : Nat → AttemptResp) (title : String)
    (retries : Int) (i : Nat) (tok : String)
    (h : EditEv.editSubmit i tok ∈ (edit_page O title retries).2) :
    (∃ resp, O i = .csrfOk tok resp) ∧
      ∃ l1 l2, (edit_page O title retries).2
        = l1 ++ EditEv.csrfFetch i :: EditEv.editSubmit i tok :: l2 :=
  editLoop_submit_token O title retries _ 0 i tok h

/-- Witness for C9 at the rate-limited-once oracle, second attempt. -/
theorem edit_page_fresh_token_per_attempt_witness :
    (∃ resp, rateLimitedOnce 1 = .csrfOk "U" resp) ∧
      ∃ l1 l2, (edit_page rateLimitedOnce "Page" 2).2
        = l1 ++ EditEv.csrfFetch 1 :: EditEv.editSubmit 1 "U" :: l2 :=
  edit_page_fresh_token_per_attempt rateLimitedOnce "Page" 2 1 "U" (by decide)

/-- Retry classification of the loop: at any reached attempt with attempts
remaining, a failure outside the `HTTPError` class leads to the next
attempt (which begins with a token fetch), while a non-429 HTTP status
error terminates the call with exactly that error. -/
theorem editLoop_retry_policy (O : Nat → AttemptResp) (title : String) (retries : Int) :
    ∀ (rem a i : Nat), a + rem = (retries + 1).toNat →
      EditEv.csrfFetch i ∈ (editLoop O title retries a rem).2 → (i : Int) < retries →
      (retryableResp (O i) = true →
        EditEv.csrfFetch (i + 1) ∈ (editLoop O title retries a rem).2) ∧
      (∀ tok s, O i = .csrfOk tok (.httpErr s) → s ≠ 429 →
        (editLoop O title retries a rem).1 = some (.error (.httpError s))) := by
  intro rem
  induction rem with
  | zero => intro a i _ hi _; simp [editLoop] at hi
  | succ r ih =>
    intro a i hinv hi hlt
    cases hO : O a with
    | csrfFail =>
      by_cases hca : (a : Int) < retries
      · simp only [editLoop, hO, if_pos hca] at hi ⊢
        simp at hi
        rcases hi with hia | hi
        · subst hia
          constructor
          · intro _
            have hr : 1 ≤ r := by omega
            obtain ⟨r', rfl⟩ : ∃ r', r = r' + 1 := ⟨r - 1, by omega⟩
            exact List.mem_cons_of_mem _ (editLoop_fetch_self O title retries (i + 1) r')
          · intro tok s heq _
            rw [hO] at heq
            simp at heq
        · have := ih (a + 1) i (by omega) hi hlt
          exact ⟨fun hr => List.mem_cons_of_mem _ (this.1 hr), this.2⟩
      · simp only [editLoop, hO, if_neg hca] at hi
        simp at hi
        subst hi
        omega
    | csrfOk tok' resp =>
      cases resp with
      | netErr m =>
        by_cases hca : (a : Int) < retries
        · simp only [editLoop, hO, if_pos hca] at hi ⊢
          simp at hi
          rcases hi with hia | hi
          · subst hia
            constructor
            · intro _
              have hr : 1 ≤ r := by omega
              obtain ⟨r', rfl⟩ : ∃ r', r = r' + 1 := ⟨r - 1, by omega⟩
              exact List.mem_cons_of_mem _ (List.mem_cons_of_mem _
                (editLoop_fetch_self O title retries (i + 1) r'))
            · intro tok s heq _
              rw [hO] at heq
              simp at heq
          · have := ih (a + 1) i (by omega) hi hlt
            exact ⟨fun hr => List.mem_cons_of_mem _ (List.mem_cons_of_mem _ (this.1 hr)),
              this.2⟩
        · simp only [editLoop, hO, if_neg hca] at hi
          simp at hi
          subst hi
          omega
      | httpErr s' =>
        by_cases hc : s' = 429 ∧ (a : Int) < retries
        · simp only [editLoop, hO, if_pos hc] at hi ⊢
          simp at hi
          rcases hi with hia | hi
          · subst hia
            constructor
            · intro hret
              rw [hO] at hret
              simp [retryableResp] at hret
            · intro tok s heq h429
              rw [hO] at heq
              simp at heq
              omega
          · have := ih (a + 1) i (by omega) hi hlt
            exact ⟨fun hr => List.mem_cons_of_mem _ (List.mem_cons_of_mem _ (this.1 hr)),
              this.2⟩
        · simp only [editLoop, hO, if_neg hc] at hi ⊢
          simp at hi
          subst hi
          constructor
          · intro hret
            rw [hO] at hret
            simp [retryableResp] at hret
          · intro tok s heq _
            rw [hO] at heq
            simp at heq
            rw [heq.2]
      | envelope res msg rev =>
        by_cases hres : res = "Success"
        · simp only [editLoop, hO, if_pos hres] at hi ⊢
          simp at hi
          subst hi
          constructor
          · intro hret
            rw [hO] at hret
            simp [retryableResp, hres] at hret
          · intro tok s heq _
            rw [hO] at heq
            simp at heq
        · by_cases hca : (a : Int) < retries
          · simp only [editLoop, hO, if_neg hres, if_pos hca] at hi ⊢
            simp at hi
            rcases hi with hia | hi
            · subst hia
              constructor
              · intro _
                have hr : 1 ≤ r := by omega
                obtain ⟨r', rfl⟩ : ∃ r', r = r' + 1 := ⟨r - 1, by omega⟩
                exact List.mem_cons_of_mem _ (List.mem_cons_of_mem _
                  (editLoop_fetch_self O title retries (i + 1) r'))
              · intro tok s heq _
                rw [hO] at heq
                simp at heq
            · have := ih (a + 1) i (by omega) hi hlt
              exact ⟨fun hr => List.mem_cons_of_mem _ (List.mem_cons_of_mem _ (this.1 hr)),
                this.2⟩
          · simp only [editLoop, hO, if_neg hres, if_neg hca] at hi
            simp at hi
            subst hi
            omega

/-- C2 amended: within one `edit_page` call, a failure that is not an HTTP
status error — a token-fetch failure, a transport error, or a
remote-reported rejection — is retried from the token-fetch step while
attempts remain; an HTTP status error is retried only when its status is
429, and any other HTTP status error terminates the call immediately even
when attempts remain. -/
theorem edit_page_retry_policy (O : Nat → AttemptResp) (title : String) (retries : Int)
    (i : Nat) (hi : EditEv.csrfFetch i ∈ (edit_page O title retries).2)
    (hlt : (i : Int) < retries) :
    (retryableResp (O i) = true →
      EditEv.csrfFetch (i + 1) ∈ (edit_page O title retries).2) ∧
    (∀ tok s, O i = .csrfOk tok (.httpErr s) → s ≠ 429 →
      (edit_page O title retries).1 = some (.error (.httpError s))) :=
  editLoop_retry_policy O title retries _ 0 i (by omega) hi hlt

/-- Witness for the amended C2: a failing token fetch at attempt 0 with
`retries = 2` leads to a second fetch. -/
theorem edit_page_retry_policy_witness :
    EditEv.csrfFetch 1 ∈ (edit_page (fun _ => AttemptResp.csrfFail) "Page" 2).2 :=
  (edit_page_retry_policy (fun _ => .csrfFail) "Page" 2 0 (by decide) (by decide)).1
    (by decide)

end WikiPublish
